import Mathlib

/-!
Verification of the token-revocation endpoint
(`src/server/auth/handlers/revoke.ts`).

The endpoint composes, in order: a CORS stage, an HTTP-method gate, an
optional rate-limit stage, a client-authentication stage, and the business
stage that validates the body, delegates to the provider and maps errors to
HTTP responses.  The source file under verification is `revoke.ts`; the
pieces it imports (the error classes, the request schema, the
`allowedMethods` and `authenticateClient` middleware, the rate limiter) are
not part of the sources and are modelled from the specification where
needed.
-/

namespace Revoke

/-- A response body: either the empty JSON object sent on success, or the
standard OAuth error object with `error` and `error_description` fields. -/
inductive Body where
  | emptyObject : Body
  | errorObject (error : String) (errorDescription : String) : Body
deriving DecidableEq, Repr

/-- Modelled from the spec: the OAuthError taxonomy (the file `errors.ts` is
not among the sources).  A protocol error carries a machine-readable kind and
a human-readable description; `other` stands for any further protocol-tagged
kind with its wire code. -/
inductive OAuthError where
  | invalidRequest (desc : String) : OAuthError
  | tooManyRequests (desc : String) : OAuthError
  | serverError (desc : String) : OAuthError
  | other (code : String) (desc : String) : OAuthError
deriving DecidableEq, Repr

/-- The `instanceof ServerError` test used by the catch branch of the
business stage. -/
def OAuthError.isServerError : OAuthError → Bool
  | .serverError _ => true
  | _ => false

/-- Modelled from the spec: `toResponseObject` renders a protocol error as
the standard body with snake_case wire codes, e.g.
`server_error` / `Internal Server Error`. -/
def OAuthError.toResponseObject : OAuthError → Body
  | .invalidRequest d => .errorObject "invalid_request" d
  | .tooManyRequests d => .errorObject "too_many_requests" d
  | .serverError d => .errorObject "server_error" d
  | .other c d => .errorObject c d

/-- An exception raised by the provider or by the business stage: either a
protocol-tagged `OAuthError` or an arbitrary non-protocol failure carrying
internal details. -/
inductive Thrown where
  | protocol (e : OAuthError) : Thrown
  | nonProtocol (details : String) : Thrown
deriving DecidableEq, Repr

/-- The authenticated caller identity attached to the request by the
client-authentication stage. -/
structure Client where
  clientId : String
deriving DecidableEq, Repr

/-- The parsed revocation request: `token` is required,
`token_type_hint` optional. -/
structure OAuthTokenRevocationRequest where
  token : String
  tokenTypeHint : Option String
deriving DecidableEq, Repr

/-- Modelled from the spec: `OAuthTokenRevocationRequestSchema.safeParse`
(the schema lives in `shared/auth.ts`, not among the sources).  The body is a
form-urlencoded field list; `token` is a required string, `token_type_hint`
an optional string, and unknown extra fields are ignored.  On failure the
result carries the validation message. -/
def safeParse (body : List (String × String)) :
    Except String OAuthTokenRevocationRequest :=
  match body.lookup "token" with
  | none => .error "token: Required"
  | some t => .ok ⟨t, body.lookup "token_type_hint"⟩

/-- The provider capability consumed by the endpoint.  `revokeToken` is
optional: a provider may not support revocation.  A call either completes
(`.ok`) or throws (`.error`). -/
structure OAuthServerProvider where
  revokeToken : Option (Client → OAuthTokenRevocationRequest → Except Thrown Unit)

/-- The resolved rate-limit options handed to the external rate limiter. -/
structure RateLimitOptions where
  windowMs : Nat
  max : Nat
  standardHeaders : Bool
  legacyHeaders : Bool
  message : Body
deriving DecidableEq, Repr

/-- A `Partial<RateLimitOptions>`: each field may be absent, in which case
the default below applies. -/
structure PartialRateLimitOptions where
  windowMs : Option Nat := none
  max : Option Nat := none
  standardHeaders : Option Bool := none
  legacyHeaders : Option Bool := none
  message : Option Body := none
deriving DecidableEq, Repr

/-- The `rateLimit` configuration accepted by `revocationHandler`:
`false` (disable), a partial options object, or absent (`undefined`). -/
inductive RateLimitConfig where
  | disabled : RateLimitConfig
  | options (cfg : PartialRateLimitOptions) : RateLimitConfig
  | absent : RateLimitConfig
deriving DecidableEq, Repr

/-- The default rejection message configured in `revoke.ts`:
`new TooManyRequestsError(...).toResponseObject()`. -/
def defaultRateLimitMessage : Body :=
  (OAuthError.tooManyRequests
    "You have exceeded the rate limit for token revocation requests").toResponseObject

/-- The object-spread merge in `revoke.ts`: defaults
`windowMs = 15 * 60 * 1000`, `max = 50`, `standardHeaders = true`,
`legacyHeaders = false`, default message, each overridden by a
caller-supplied field when present. -/
def mergeRateLimit (cfg : PartialRateLimitOptions) : RateLimitOptions where
  windowMs := cfg.windowMs.getD (15 * 60 * 1000)
  max := cfg.max.getD 50
  standardHeaders := cfg.standardHeaders.getD true
  legacyHeaders := cfg.legacyHeaders.getD false
  message := cfg.message.getD defaultRateLimitMessage

/-- The `if (rateLimitConfig !== false)` guard in `revoke.ts`: `false`
installs no limiter, anything else installs the merged options (spreading
`undefined` changes nothing, so an absent config behaves like `\x7b\x7d`). -/
def installedRateLimit : RateLimitConfig → Option RateLimitOptions
  | .disabled => none
  | .options cfg => some (mergeRateLimit cfg)
  | .absent => some (mergeRateLimit {})

/-- The options record taken by `revocationHandler`. -/
structure RevocationHandlerOptions where
  provider : OAuthServerProvider
  rateLimit : RateLimitConfig := .absent

/-- The assembled request pipeline returned by `revocationHandler`. -/
structure Handler where
  provider : OAuthServerProvider
  rateLimit : Option RateLimitOptions

/-- `revocationHandler`: throws (here: `.error`) when the provider lacks
`revokeToken`, otherwise builds the pipeline, installing the rate limiter
unless the configuration is the literal `false`. -/
def revocationHandler (opts : RevocationHandlerOptions) :
    Except String Handler :=
  if opts.provider.revokeToken.isNone then
    .error "Auth provider does not support revoking tokens"
  else
    .ok ⟨opts.provider, installedRateLimit opts.rateLimit⟩

/-- An incoming HTTP request: its method and its form-urlencoded body. -/
structure Request where
  method : String
  body : List (String × String)

/-- The behaviour of the external collaborators for one request: whether the
external rate limiter judges this request over the cap, and the outcome of
the external `authenticateClient` middleware (a terminal status/body on
failure, or continuation with the client it attached to the request —
`none` modelling the defensive case where it continued without attaching
one). -/
structure World where
  rateLimitExceeded : Bool
  authResult : Except (Nat × Body) (Option Client)

/-- An HTTP response: status, accumulated headers, JSON body. -/
structure Response where
  status : Nat
  headers : List (String × String)
  body : Body
deriving DecidableEq, Repr

/-- The pipeline stages of the endpoint, in their installation order. -/
inductive Stage where
  | cors : Stage
  | methodGate : Stage
  | rateLimit : Stage
  | auth : Stage
  | business : Stage
deriving DecidableEq, Repr

/-- What handling one request produced: the response, the stages that
actually ran, and whether the provider's `revokeToken` was invoked. -/
structure Outcome where
  response : Response
  stages : List Stage
  revokeInvoked : Bool
deriving Repr

/-- The header set by the CORS stage (any origin). -/
def corsHeaders : List (String × String) :=
  [("Access-Control-Allow-Origin", "*")]

/-- Modelled from the spec: the response of the `allowedMethods` middleware
(not among the sources) for a non-POST request — a method-not-allowed
(405-class) client error. -/
def methodNotAllowedResponse (hdrs : List (String × String)) : Response where
  status := 405
  headers := hdrs
  body := .errorObject "method_not_allowed" "The method is not allowed"

/-- The catch branch of the business stage in `revoke.ts`: a protocol error
responds with 500 for `ServerError` and 400 for every other kind, rendered
by `toResponseObject`; any other exception responds 500 with a fresh generic
`ServerError` body, dropping the original details. -/
def catchBranch (hdrs : List (String × String)) : Thrown → Response
  | .protocol e =>
      { status := if e.isServerError then 500 else 400
        headers := hdrs
        body := e.toResponseObject }
  | .nonProtocol _ =>
      { status := 500
        headers := hdrs
        body := (OAuthError.serverError "Internal Server Error").toResponseObject }

/-- The `router.post` handler body in `revoke.ts`: set
`Cache-Control: no-store`, validate the body, read the attached client,
invoke the provider, and map success or any thrown error to a response.
Also reports whether `revokeToken` was invoked. -/
def businessStage (provider : OAuthServerProvider) (client? : Option Client)
    (req : Request) (hdrs0 : List (String × String)) : Response × Bool :=
  let hdrs := hdrs0 ++ [("Cache-Control", "no-store")]
  match safeParse req.body with
  | .error msg => (catchBranch hdrs (.protocol (.invalidRequest msg)), false)
  | .ok parsed =>
    match client? with
    | none =>
        (catchBranch hdrs (.protocol (.serverError "Internal Server Error")), false)
    | some client =>
      match provider.revokeToken.get! client parsed with
      | .ok _ => ({ status := 200, headers := hdrs, body := .emptyObject }, true)
      | .error t => (catchBranch hdrs t, true)

/-- The tail of the pipeline after the rate-limit stage: the
`authenticateClient` middleware either terminates with its own error
response or attaches the client and hands over to the business stage. -/
def runTail (h : Handler) (w : World) (req : Request)
    (hdrs : List (String × String)) (ran : List Stage) : Outcome :=
  match w.authResult with
  | .error sb =>
      { response := { status := sb.1, headers := hdrs, body := sb.2 }
        stages := ran ++ [.auth]
        revokeInvoked := false }
  | .ok client? =>
      let rb := businessStage h.provider client? req hdrs
      { response := rb.1
        stages := ran ++ [.auth, .business]
        revokeInvoked := rb.2 }

/-- Run the assembled pipeline on one request: CORS, method gate, the rate
limiter when installed, client authentication, then the business stage; each
stage may short-circuit with a response, skipping all later stages. -/
def runHandler (h : Handler) (w : World) (req : Request) : Outcome :=
  let hdrs := corsHeaders
  if req.method = "POST" then
    match h.rateLimit with
    | some opts =>
        if w.rateLimitExceeded then
          { response := { status := 429, headers := hdrs, body := opts.message }
            stages := [.cors, .methodGate, .rateLimit]
            revokeInvoked := false }
        else
          runTail h w req hdrs [.cors, .methodGate, .rateLimit]
    | none =>
        runTail h w req hdrs [.cors, .methodGate]
  else
    { response := methodNotAllowedResponse hdrs
      stages := [.cors, .methodGate]
      revokeInvoked := false }

/-! Concrete values used to exercise the theorems below. -/

/-- A concrete authenticated client. -/
def demoClient : Client := ⟨"client-1"⟩

/-- A concrete well-formed request body. -/
def demoBody : List (String × String) := [("token", "tok-123")]

/-- A concrete well-formed POST request. -/
def demoReq : Request := { method := "POST", body := demoBody }

/-- The parse of `demoBody`. -/
def demoParsed : OAuthTokenRevocationRequest := ⟨"tok-123", none⟩

/-- A provider whose revoke call completes without throwing. -/
def okProvider : OAuthServerProvider := ⟨some fun _ _ => .ok ()⟩

/-- A world where the rate limiter passes and authentication attaches
`demoClient`. -/
def demoWorld : World :=
  { rateLimitExceeded := false, authResult := .ok (some demoClient) }

/-- Claim C1: for a well-formed, authenticated POST whose provider revoke
call completes without throwing, the response is status 200 with body
exactly the empty JSON object and the `Cache-Control: no-store` header set —
the non-throwing return carries no provider-reported outcome that could
alter the success status. -/
theorem success_responds_200_empty (h : Handler) (w : World) (req : Request)
    (client : Client)
    (f : Client → OAuthTokenRevocationRequest → Except Thrown Unit)
    (parsed : OAuthTokenRevocationRequest)
    (hm : req.method = "POST")
    (hr : w.rateLimitExceeded = false)
    (ha : w.authResult = .ok (some client))
    (hp : safeParse req.body = .ok parsed)
    (hf : h.provider.revokeToken = some f)
    (hok : f client parsed = .ok ()) :
    (runHandler h w req).response.status = 200 ∧
    (runHandler h w req).response.body = .emptyObject ∧
    ("Cache-Control", "no-store") ∈ (runHandler h w req).response.headers := by
  cases hrl : h.rateLimit <;>
    simp [runHandler, runTail, businessStage, hm, hr, ha, hp, hf, hok, hrl,
      Option.get!, corsHeaders]

/-- Witness for C1 at concrete inputs. -/
theorem success_responds_200_empty_witness :
    demoReq.method = "POST" ∧
    demoWorld.rateLimitExceeded = false ∧
    demoWorld.authResult = .ok (some demoClient) ∧
    safeParse demoReq.body = .ok demoParsed ∧
    okProvider.revokeToken = some (fun _ _ => .ok ()) ∧
    ((runHandler ⟨okProvider, none⟩ demoWorld demoReq).response.status = 200 ∧
     (runHandler ⟨okProvider, none⟩ demoWorld demoReq).response.body = .emptyObject ∧
     ("Cache-Control", "no-store") ∈
       (runHandler ⟨okProvider, none⟩ demoWorld demoReq).response.headers) :=
  ⟨rfl, rfl, rfl, rfl, rfl,
    success_responds_200_empty ⟨okProvider, none⟩ demoWorld demoReq demoClient
      (fun _ _ => .ok ()) demoParsed rfl rfl rfl rfl rfl rfl⟩

/-- Claim C2: a protocol (OAuthError-tagged) error thrown in the business
stage — here, by the provider's revoke call — responds with 500 for a
ServerError-kind error, 400 for every other kind, and the error's rendered
body. -/
theorem protocol_error_status_and_body (h : Handler) (w : World)
    (req : Request) (client : Client)
    (f : Client → OAuthTokenRevocationRequest → Except Thrown Unit)
    (parsed : OAuthTokenRevocationRequest) (e : OAuthError)
    (hm : req.method = "POST")
    (hr : w.rateLimitExceeded = false)
    (ha : w.authResult = .ok (some client))
    (hp : safeParse req.body = .ok parsed)
    (hf : h.provider.revokeToken = some f)
    (herr : f client parsed = .error (.protocol e)) :
    (runHandler h w req).response.status =
      (if e.isServerError then 500 else 400) ∧
    (runHandler h w req).response.body = e.toResponseObject := by
  cases hrl : h.rateLimit <;>
    simp [runHandler, runTail, businessStage, catchBranch, hm, hr, ha, hp,
      hf, herr, hrl, Option.get!]

/-- A provider whose revoke call throws a non-server protocol error. -/
def protoErrProvider : OAuthServerProvider :=
  ⟨some fun _ _ => .error (.protocol (.other "invalid_grant" "unknown token"))⟩

/-- Witness for C2 at concrete inputs: a non-ServerError kind maps to 400. -/
theorem protocol_error_status_and_body_witness :
    demoReq.method = "POST" ∧
    demoWorld.rateLimitExceeded = false ∧
    demoWorld.authResult = .ok (some demoClient) ∧
    safeParse demoReq.body = .ok demoParsed ∧
    protoErrProvider.revokeToken =
      some (fun _ _ => .error (.protocol (.other "invalid_grant" "unknown token"))) ∧
    ((runHandler ⟨protoErrProvider, none⟩ demoWorld demoReq).response.status =
      (if (OAuthError.other "invalid_grant" "unknown token").isServerError
        then 500 else 400) ∧
     (runHandler ⟨protoErrProvider, none⟩ demoWorld demoReq).response.body =
       (OAuthError.other "invalid_grant" "unknown token").toResponseObject) :=
  ⟨rfl, rfl, rfl, rfl, rfl,
    protocol_error_status_and_body ⟨protoErrProvider, none⟩ demoWorld demoReq
      demoClient
      (fun _ _ => .error (.protocol (.other "invalid_grant" "unknown token")))
      demoParsed (.other "invalid_grant" "unknown token") rfl rfl rfl rfl rfl rfl⟩

/-- Claim C3: any non-protocol failure thrown by the provider responds with
exactly status 500 and the generic
`server_error` / `Internal Server Error` body, whatever the original
details were — so those details never appear in the response. -/
theorem nonprotocol_error_masked_500 (h : Handler) (w : World)
    (req : Request) (client : Client)
    (f : Client → OAuthTokenRevocationRequest → Except Thrown Unit)
    (parsed : OAuthTokenRevocationRequest) (details : String)
    (hm : req.method = "POST")
    (hr : w.rateLimitExceeded = false)
    (ha : w.authResult = .ok (some client))
    (hp : safeParse req.body = .ok parsed)
    (hf : h.provider.revokeToken = some f)
    (herr : f client parsed = .error (.nonProtocol details)) :
    (runHandler h w req).response.status = 500 ∧
    (runHandler h w req).response.body =
      .errorObject "server_error" "Internal Server Error" := by
  cases hrl : h.rateLimit <;>
    simp [runHandler, runTail, businessStage, catchBranch, hm, hr, ha, hp,
      hf, herr, hrl, Option.get!, OAuthError.toResponseObject]

/-- A provider whose revoke call fails with an internal, non-protocol
exception. -/
def crashProvider : OAuthServerProvider :=
  ⟨some fun _ _ => .error (.nonProtocol "database connection lost")⟩

/-- Witness for C3 at concrete inputs. -/
theorem nonprotocol_error_masked_500_witness :
    demoReq.method = "POST" ∧
    demoWorld.rateLimitExceeded = false ∧
    demoWorld.authResult = .ok (some demoClient) ∧
    safeParse demoReq.body = .ok demoParsed ∧
    crashProvider.revokeToken =
      some (fun _ _ => .error (.nonProtocol "database connection lost")) ∧
    ((runHandler ⟨crashProvider, none⟩ demoWorld demoReq).response.status = 500 ∧
     (runHandler ⟨crashProvider, none⟩ demoWorld demoReq).response.body =
       .errorObject "server_error" "Internal Server Error") :=
  ⟨rfl, rfl, rfl, rfl, rfl,
    nonprotocol_error_masked_500 ⟨crashProvider, none⟩ demoWorld demoReq
      demoClient (fun _ _ => .error (.nonProtocol "database connection lost"))
      demoParsed "database connection lost" rfl rfl rfl rfl rfl rfl⟩

/-- Claim C4: a request body that fails validation against the schema
responds with the InvalidRequest error (status 400, `invalid_request` body)
and the provider's revoke capability is never invoked for that request. -/
theorem invalid_body_400_no_revoke (h : Handler) (w : World) (req : Request)
    (client? : Option Client) (msg : String)
    (hm : req.method = "POST")
    (hr : w.rateLimitExceeded = false)
    (ha : w.authResult = .ok client?)
    (hp : safeParse req.body = .error msg) :
    (runHandler h w req).response.status = 400 ∧
    (runHandler h w req).response.body = .errorObject "invalid_request" msg ∧
    (runHandler h w req).revokeInvoked = false := by
  cases hrl : h.rateLimit <;>
    simp [runHandler, runTail, businessStage, catchBranch, hm, hr, ha, hp,
      hrl, OAuthError.isServerError, OAuthError.toResponseObject]

/-- A concrete POST request whose body lacks the required `token` field. -/
def demoBadReq : Request := { method := "POST", body := [("foo", "bar")] }

/-- Witness for C4 at concrete inputs: a body missing `token`. -/
theorem invalid_body_400_no_revoke_witness :
    demoBadReq.method = "POST" ∧
    demoWorld.rateLimitExceeded = false ∧
    demoWorld.authResult = .ok (some demoClient) ∧
    safeParse demoBadReq.body = .error "token: Required" ∧
    ((runHandler ⟨okProvider, none⟩ demoWorld demoBadReq).response.status = 400 ∧
     (runHandler ⟨okProvider, none⟩ demoWorld demoBadReq).response.body =
       .errorObject "invalid_request" "token: Required" ∧
     (runHandler ⟨okProvider, none⟩ demoWorld demoBadReq).revokeInvoked = false) :=
  ⟨rfl, rfl, rfl, rfl,
    invalid_body_400_no_revoke ⟨okProvider, none⟩ demoWorld demoBadReq
      (some demoClient) "token: Required" rfl rfl rfl rfl⟩

/-- Claim C5: a request whose method is not POST responds with the
method-not-allowed (405) error and runs only the CORS and method-gate
stages: the rate-limit stage, the authentication stage and the business
stage never run, and the provider's revoke capability is never invoked. -/
theorem non_post_405_short_circuit (h : Handler) (w : World) (req : Request)
    (hm : req.method ≠ "POST") :
    (runHandler h w req).response.status = 405 ∧
    (runHandler h w req).stages = [.cors, .methodGate] ∧
    Stage.rateLimit ∉ (runHandler h w req).stages ∧
    Stage.auth ∉ (runHandler h w req).stages ∧
    Stage.business ∉ (runHandler h w req).stages ∧
    (runHandler h w req).revokeInvoked = false := by
  simp [runHandler, methodNotAllowedResponse, hm]

/-- A concrete GET request. -/
def demoGetReq : Request := { method := "GET", body := demoBody }

/-- Witness for C5 at concrete inputs. -/
theorem non_post_405_short_circuit_witness :
    demoGetReq.method ≠ "POST" ∧
    ((runHandler ⟨okProvider, none⟩ demoWorld demoGetReq).response.status = 405 ∧
     (runHandler ⟨okProvider, none⟩ demoWorld demoGetReq).stages =
       [.cors, .methodGate] ∧
     Stage.rateLimit ∉ (runHandler ⟨okProvider, none⟩ demoWorld demoGetReq).stages ∧
     Stage.auth ∉ (runHandler ⟨okProvider, none⟩ demoWorld demoGetReq).stages ∧
     Stage.business ∉ (runHandler ⟨okProvider, none⟩ demoWorld demoGetReq).stages ∧
     (runHandler ⟨okProvider, none⟩ demoWorld demoGetReq).revokeInvoked = false) :=
  ⟨by decide,
    non_post_405_short_circuit ⟨okProvider, none⟩ demoWorld demoGetReq (by decide)⟩

/-- Claim C6: the literal `false` configuration installs no rate limiter, so
the rate-limit stage never runs for any request; any partial options object
is merged over the defaults `windowMs = 15 minutes`, `max = 50`,
`standardHeaders = true`, `legacyHeaders = false` with caller fields taking
precedence; an absent configuration yields exactly the defaults. -/
theorem rate_limit_config_merge (cfg : PartialRateLimitOptions) (h : Handler)
    (w : World) (req : Request)
    (hrl : h.rateLimit = none) :
    installedRateLimit .disabled = none ∧
    Stage.rateLimit ∉ (runHandler h w req).stages ∧
    installedRateLimit (.options cfg) =
      some ⟨cfg.windowMs.getD (15 * 60 * 1000), cfg.max.getD 50,
        cfg.standardHeaders.getD true, cfg.legacyHeaders.getD false,
        cfg.message.getD defaultRateLimitMessage⟩ ∧
    installedRateLimit .absent =
      some ⟨15 * 60 * 1000, 50, true, false, defaultRateLimitMessage⟩ := by
  refine ⟨rfl, ?_, rfl, rfl⟩
  by_cases hm : req.method = "POST" <;>
    cases ha : w.authResult <;>
      simp [runHandler, runTail, hm, hrl, ha]

/-- A concrete partial configuration overriding `max` only. -/
def demoPartialCfg : PartialRateLimitOptions := { max := some 10 }

/-- Witness for C6 at concrete inputs. -/
theorem rate_limit_config_merge_witness :
    (Handler.mk okProvider none).rateLimit = none ∧
    (installedRateLimit .disabled = none ∧
     Stage.rateLimit ∉ (runHandler ⟨okProvider, none⟩ demoWorld demoReq).stages ∧
     installedRateLimit (.options demoPartialCfg) =
       some ⟨demoPartialCfg.windowMs.getD (15 * 60 * 1000),
         demoPartialCfg.max.getD 50, demoPartialCfg.standardHeaders.getD true,
         demoPartialCfg.legacyHeaders.getD false,
         demoPartialCfg.message.getD defaultRateLimitMessage⟩ ∧
     installedRateLimit .absent =
       some ⟨15 * 60 * 1000, 50, true, false, defaultRateLimitMessage⟩) :=
  ⟨rfl, rate_limit_config_merge demoPartialCfg ⟨okProvider, none⟩ demoWorld
    demoReq rfl⟩

/-- Claim C7: when the installed rate limiter judges a POST request over the
cap (and the configuration did not override the rejection message), the
response is the TooManyRequests error body with status 429, and the request
terminates there: the authentication and business stages never run and the
provider's revoke capability is never invoked. -/
theorem rate_limited_too_many_requests (h : Handler) (w : World)
    (req : Request) (cfg : PartialRateLimitOptions)
    (hm : req.method = "POST")
    (hrl : h.rateLimit = some (mergeRateLimit cfg))
    (hmsg : cfg.message = none)
    (hx : w.rateLimitExceeded = true) :
    (runHandler h w req).response.status = 429 ∧
    (runHandler h w req).response.body =
      .errorObject "too_many_requests"
        "You have exceeded the rate limit for token revocation requests" ∧
    Stage.auth ∉ (runHandler h w req).stages ∧
    Stage.business ∉ (runHandler h w req).stages ∧
    (runHandler h w req).revokeInvoked = false := by
  simp [runHandler, mergeRateLimit, defaultRateLimitMessage,
    OAuthError.toResponseObject, hm, hrl, hmsg, hx]

/-- A world where the external rate limiter judges the request over the
cap. -/
def demoLimitedWorld : World :=
  { rateLimitExceeded := true, authResult := .ok (some demoClient) }

/-- The handler with the default rate-limit options installed. -/
def demoLimitedHandler : Handler := ⟨okProvider, some (mergeRateLimit {})⟩

/-- Witness for C7 at concrete inputs. -/
theorem rate_limited_too_many_requests_witness :
    demoReq.method = "POST" ∧
    demoLimitedHandler.rateLimit = some (mergeRateLimit {}) ∧
    PartialRateLimitOptions.message {} = none ∧
    demoLimitedWorld.rateLimitExceeded = true ∧
    ((runHandler demoLimitedHandler demoLimitedWorld demoReq).response.status = 429 ∧
     (runHandler demoLimitedHandler demoLimitedWorld demoReq).response.body =
       .errorObject "too_many_requests"
         "You have exceeded the rate limit for token revocation requests" ∧
     Stage.auth ∉ (runHandler demoLimitedHandler demoLimitedWorld demoReq).stages ∧
     Stage.business ∉
       (runHandler demoLimitedHandler demoLimitedWorld demoReq).stages ∧
     (runHandler demoLimitedHandler demoLimitedWorld demoReq).revokeInvoked = false) :=
  ⟨rfl, rfl, rfl, rfl,
    rate_limited_too_many_requests demoLimitedHandler demoLimitedWorld demoReq
      {} rfl rfl rfl rfl⟩

/-- Claim C8: constructing the endpoint with a provider lacking
`revokeToken` fails immediately by throwing at construction time: the result
is the construction error, never a handler, so no request-handling pipeline
exists and the failure is not converted to a per-request error response. -/
theorem construction_fails_without_revoke (opts : RevocationHandlerOptions)
    (hno : opts.provider.revokeToken = none) :
    revocationHandler opts =
      .error "Auth provider does not support revoking tokens" := by
  simp [revocationHandler, hno]

/-- A provider that does not support revocation. -/
def noRevokeProvider : OAuthServerProvider := ⟨none⟩

/-- Witness for C8 at concrete inputs. -/
theorem construction_fails_without_revoke_witness :
    noRevokeProvider.revokeToken = none ∧
    revocationHandler ⟨noRevokeProvider, .absent⟩ =
      .error "Auth provider does not support revoking tokens" :=
  ⟨rfl, construction_fails_without_revoke ⟨noRevokeProvider, .absent⟩ rfl⟩

/-- Claim C9: when the business stage finds no authenticated client attached
to the request (the defensive, normally unreachable branch) on a request
whose body parses, the response is the ServerError rendering with status
500, not a client-error status. -/
theorem missing_client_server_error (h : Handler) (w : World) (req : Request)
    (parsed : OAuthTokenRevocationRequest)
    (hm : req.method = "POST")
    (hr : w.rateLimitExceeded = false)
    (ha : w.authResult = .ok none)
    (hp : safeParse req.body = .ok parsed) :
    (runHandler h w req).response.status = 500 ∧
    (runHandler h w req).response.body =
      .errorObject "server_error" "Internal Server Error" ∧
    (runHandler h w req).response.status ∉ Set.Ico 400 500 := by
  cases hrl : h.rateLimit <;>
    simp [runHandler, runTail, businessStage, catchBranch, hm, hr, ha, hp,
      hrl, OAuthError.isServerError, OAuthError.toResponseObject]

/-- A world whose authentication middleware continued without attaching a
client — the pipeline-wiring fault the defensive branch guards against. -/
def demoNoClientWorld : World :=
  { rateLimitExceeded := false, authResult := .ok none }

/-- Witness for C9 at concrete inputs. -/
theorem missing_client_server_error_witness :
    demoReq.method = "POST" ∧
    demoNoClientWorld.rateLimitExceeded = false ∧
    demoNoClientWorld.authResult = .ok none ∧
    safeParse demoReq.body = .ok demoParsed ∧
    ((runHandler ⟨okProvider, none⟩ demoNoClientWorld demoReq).response.status = 500 ∧
     (runHandler ⟨okProvider, none⟩ demoNoClientWorld demoReq).response.body =
       .errorObject "server_error" "Internal Server Error" ∧
     (runHandler ⟨okProvider, none⟩ demoNoClientWorld demoReq).response.status ∉
       Set.Ico 400 500) :=
  ⟨rfl, rfl, rfl, rfl,
    missing_client_server_error ⟨okProvider, none⟩ demoNoClientWorld demoReq
      demoParsed rfl rfl rfl rfl⟩

/-- Claim C10: every handler that `revocationHandler` actually returns holds
a provider whose `revokeToken` is defined, so the non-null-asserted call in
the business stage can never dereference a missing function. -/
theorem handler_provider_has_revoke (opts : RevocationHandlerOptions)
    (h : Handler)
    (hok : revocationHandler opts = .ok h) :
    h.provider.revokeToken.isSome = true := by
  by_cases hn : opts.provider.revokeToken.isNone
  · simp [revocationHandler, hn] at hok
  · have : h.provider = opts.provider := by
      simp [revocationHandler, hn] at hok
      exact congrArg Handler.provider hok.symm
    rw [this]
    simpa [Option.isNone_iff_eq_none, ← Option.ne_none_iff_isSome] using hn

/-- Witness for C10 at concrete inputs. -/
theorem handler_provider_has_revoke_witness :
    revocationHandler ⟨okProvider, .disabled⟩ = .ok ⟨okProvider, none⟩ ∧
    (Handler.mk okProvider none).provider.revokeToken.isSome = true :=
  ⟨rfl, handler_provider_has_revoke ⟨okProvider, .disabled⟩ ⟨okProvider, none⟩ rfl⟩

end Revoke
